import Mathlib

/-!
Shallow embedding of the authentication subsystem and server lifecycle of the
concierge repository (package `server`: the auth file embedded at
`src/unnamed/part_009`, second revision, and `src/server/server.go`).

Conventions of the embedding:
* Machine time (`time.Time`, `time.Duration`) is modelled as `Int` Unix
  seconds; the JWT claims in the source already round to Unix seconds
  (`time.Now().Unix()`), and `time.Unix(claims.ExpiresAt, 0)` converts back.
  The Go zero `time.Time` (returned by the nil-safe getter
  `GetTokenExpiresAt`) is modelled as instant `0`.
* The RSA key pair is modelled by a `Nat` key identifier: a signature made
  with key `k` verifies exactly against the public half of key `k`.  The
  jwt-go library call `jwt.ParseWithClaims` is modelled by its observable
  contract: decode, check the signing method through the keyfunc, validate
  the registered claims (`StandardClaims.Valid`: `exp` and `iat`, each
  skipped when zero), and verify the signature.
* A candidate bearer string is modelled by `TokenStr`: either `malformed`
  (any string that fails JWT decoding) or a decodable JWT carrying a
  signing-method class, a signing key and claims.  Stripping the literal
  "Bearer " prefix at the top of `parseToken` does not change the denoted
  `TokenStr`, so it is the identity in this model.
* Logging (`log.Printf`) is I/O and is not modelled; the strings placed in
  RPC error statuses are modelled verbatim, except that single quotes that
  the source prints around interpolated values are elided.
-/

/-- Identifier mirrors `apiv1.Identifier`: a namespace URI plus a value.
Nilable protobuf pointers are modelled as `Option Identifier`, with the
nil-safe getters below. -/
structure Identifier where
  system : String
  value : String
deriving DecidableEq, Repr

/-- Nil-safe `GetSystem` of a `*apiv1.Identifier` (empty string for nil). -/
def getSystem : Option Identifier → String
  | none => ""
  | some i => i.system

/-- Nil-safe `GetValue` of a `*apiv1.Identifier` (empty string for nil). -/
def getValue : Option Identifier → String
  | none => ""
  | some i => i.value

/-- StandardClaims mirrors the `jwt.StandardClaims` fields set by
`generateToken`: `ExpiresAt`, `IssuedAt` (Unix seconds) and `Subject`. -/
structure StandardClaims where
  expiresAt : Int
  issuedAt : Int
  subject : String
deriving DecidableEq, Repr

/-- TokenStr is the denotation of a candidate bearer string after the
"Bearer " prefix strip: `malformed` for strings that fail JWT decoding,
`jwt` for a decodable compact serialization carrying its signing-method
class (`isRSA`: whether the `alg` header names an RSA method), the key that
produced the signature, and the claims. -/
inductive TokenStr where
  | malformed : TokenStr
  | jwt (isRSA : Bool) (key : Nat) (claims : StandardClaims) : TokenStr
deriving DecidableEq, Repr

instance : Inhabited TokenStr := ⟨TokenStr.malformed⟩

/-- Expiry claim of a token string (0 for a malformed one). -/
def TokenStr.expiry : TokenStr → Int
  | .malformed => 0
  | .jwt _ _ c => c.expiresAt

/-- Issued-at claim of a token string (0 for a malformed one). -/
def TokenStr.issuedAt : TokenStr → Int
  | .malformed => 0
  | .jwt _ _ c => c.issuedAt

/-- Errors produced along the `parseToken` path, one constructor per
distinct failure of the source: JWT decode failure, the keyfunc rejecting a
non-RSA signing method (it returns `ErrInvalidToken`), signature
verification failure, claim validation failure (expiry / issued-at), and
the explicit `ErrInvalidToken` returned when the subject does not split
into exactly two parts. -/
inductive TokenError where
  | malformed : TokenError
  | badAlgorithm : TokenError
  | badSignature : TokenError
  | expired : TokenError
  | invalidToken : TokenError
deriving DecidableEq, Repr

/-- Message text of each token error, as jwt-go / the source would render it
(dynamic parts such as the overdue duration are elided). -/
def TokenError.msg : TokenError → String
  | .malformed => "token contains an invalid number of segments"
  | .badAlgorithm => "invalid authorization token"
  | .badSignature => "crypto/rsa: verification error"
  | .expired => "token is expired"
  | .invalidToken => "invalid authorization token"

/-- Validity of the registered claims per `jwt.StandardClaims.Valid` with
`TimeFunc` frozen at `now`: `exp` passes when unset (zero) or not in the
past, `iat` passes when unset or not in the future; `nbf` is never set by
this code. -/
def claimsValid (now : Int) (c : StandardClaims) : Bool :=
  (c.expiresAt == 0 || decide (now ≤ c.expiresAt)) &&
    (c.issuedAt == 0 || decide (c.issuedAt ≤ now))

/-- Go `strings.Split` with a one-character separator, on character lists:
`splitChar sep s` never returns an empty list, and splitting the empty
string yields `[[]]`, exactly as in Go. -/
def splitChar (sep : Char) : List Char → List (List Char)
  | [] => [[]]
  | c :: cs =>
    if c = sep then [] :: splitChar sep cs
    else
      match splitChar sep cs with
      | [] => [[c]]
      | p :: ps => (c :: p) :: ps

/-- Go `strings.Split(s, sep)` for a one-character separator. -/
def goSplit (s : String) (sep : Char) : List String :=
  (splitChar sep s.data).map (fun l => String.mk l)

/-- AuthProvider mirrors the `AuthProvider` interface: `Authenticate`
returns a boolean outcome and an error, modelled as `Option String`. -/
structure AuthProvider where
  authenticate : Option Identifier → String → Bool × Option String

/-- Auth mirrors the `Auth` struct: the (nilable) RSA signing key, the
namespace-to-provider map and the set of service-account namespaces.  The
two Go maps are modelled as association/member lists. -/
structure Auth where
  jwtPrivatekey : Option Nat
  authProviders : List (String × AuthProvider)
  serviceAccounts : List String

/-- Namespace URI of concierge service users (`identifiers.ConciergeServiceUser`). -/
def ConciergeServiceUser : String := "https://concierge.eldrix.com/Id/service-user"

/-- Default token lifetime (`5 * time.Minute`), in seconds. -/
def defaultTokenDuration : Int := 5 * 60

/-- Service-account token lifetime (`72 * time.Hour`), in seconds. -/
def serviceAccountTokenDuration : Int := 72 * 60 * 60

/-- Lookup in the `authProviders` map (`auth.authProviders[uri]`). -/
def lookupAP : List (String × AuthProvider) → String → Option AuthProvider
  | [], _ => none
  | (u, ap) :: rest, uri => if u = uri then some ap else lookupAP rest uri

/-- RegisterAuthProvider: registering a second provider for the same uri
makes the source abort the process; that abort is modelled as `none`.
Otherwise the provider is added and, when `service` is set, the uri joins
the service-account set. -/
def RegisterAuthProvider (auth : Auth) (uri : String) (ap : AuthProvider)
    (service : Bool) : Option Auth :=
  if (lookupAP auth.authProviders uri).isSome then none
  else
    some { auth with
           authProviders := auth.authProviders ++ [(uri, ap)],
           serviceAccounts :=
             if service then auth.serviceAccounts ++ [uri]
             else auth.serviceAccounts }

/-- generateToken builds claims
`{ExpiresAt := now + duration, IssuedAt := now, Subject := system ++ "|" ++ value}`
and signs them with the RS256 method and the private key; signing with a
nil key is the error case of `SignedString`. -/
def generateToken (auth : Auth) (now : Int) (id : Option Identifier)
    (duration : Int) : Except String TokenStr :=
  match auth.jwtPrivatekey with
  | none => .error "key is invalid"
  | some k =>
    .ok (.jwt true k
      { expiresAt := now + duration, issuedAt := now,
        subject := getSystem id ++ "|" ++ getValue id })

/-- UserContextData mirrors the struct of the same name: the authenticated
user, the raw (prefix-stripped) token string and its expiry instant. -/
structure UserContextData where
  authenticatedUser : Option Identifier
  token : TokenStr
  tokenExpiresAt : Int
deriving DecidableEq, Repr

instance : Inhabited UserContextData :=
  ⟨{ authenticatedUser := none, token := .malformed, tokenExpiresAt := 0 }⟩

/-- Nil-safe `GetAuthenticatedUser` on a `*UserContextData`. -/
def GetAuthenticatedUser : Option UserContextData → Option Identifier
  | none => none
  | some u => u.authenticatedUser

/-- Nil-safe `GetTokenExpiresAt` on a `*UserContextData`; the Go zero
`time.Time` is modelled as instant `0`. -/
def GetTokenExpiresAt : Option UserContextData → Int
  | none => 0
  | some u => u.tokenExpiresAt

/-- parseToken: after the "Bearer " strip (identity on `TokenStr`), the
jwt-go parse runs the keyfunc (rejecting non-RSA signing methods with
`ErrInvalidToken`), validates the registered claims and verifies the
signature against the public half of `auth.jwtPrivatekey`; jwt-go
accumulates claim and signature failures into one validation error, so
their relative order is not observable and is fixed here as signature
before claims.  On a valid token the subject is split on the pipe; only a
split into exactly two parts is accepted (`len(ids) != 2` is the sole
check), and the resulting `UserContextData` keeps the raw token and the
expiry instant `time.Unix(claims.ExpiresAt, 0)`. -/
def parseToken (auth : Auth) (now : Int) (token : TokenStr) :
    Except TokenError UserContextData :=
  match token with
  | .malformed => .error .malformed
  | .jwt isRSA key claims =>
    if !isRSA then .error .badAlgorithm
    else if auth.jwtPrivatekey ≠ some key then .error .badSignature
    else if !claimsValid now claims then .error .expired
    else
      match goSplit claims.subject '|' with
      | [a, b] =>
        .ok { authenticatedUser := some { system := a, value := b },
              token := token, tokenExpiresAt := claims.expiresAt }
      | _ => .error .invalidToken

/-- Context models a `context.Context` for this code: the value (if any)
stored under the private `userContextKey`, and the incoming gRPC metadata
(`none` models `metadata.FromIncomingContext` reporting no metadata).  gRPC
metadata maps a key to a non-empty list of string values and the source
only reads the first (`tokenString[0]`), so each key is mapped to that
first value. -/
structure Context where
  userData : Option UserContextData
  metadata : Option (List (String × TokenStr))
deriving DecidableEq, Repr

/-- GetContextData: the value stored under `userContextKey`, if any. -/
def GetContextData (ctx : Context) : Option UserContextData :=
  ctx.userData

/-- Errors of `addContextData`: the two `fmt.Errorf("invalid token")`
returns (no incoming metadata / no authorization entry) and a forwarded
`parseToken` error. -/
inductive CtxErr where
  | noMetadata : CtxErr
  | noAuthHeader : CtxErr
  | parseFailed (e : TokenError) : CtxErr
deriving DecidableEq, Repr

/-- Message text of an `addContextData` error as the source renders it. -/
def CtxErr.msg : CtxErr → String
  | .noMetadata => "invalid token"
  | .noAuthHeader => "invalid token"
  | .parseFailed e => e.msg

/-- addContextData returns a new context containing `UserContextData`,
specifically returning the old context in the event of an error. -/
def addContextData (auth : Auth) (now : Int) (ctx : Context) :
    Context × Option CtxErr :=
  match ctx.metadata with
  | none => (ctx, some .noMetadata)
  | some md =>
    match md.lookup "authorization" with
    | none => (ctx, some .noAuthHeader)
    | some tokenString =>
      match parseToken auth now tokenString with
      | .error e => (ctx, some (.parseFailed e))
      | .ok user => ({ ctx with userData := some user }, none)

/-- Status codes of `google.golang.org/grpc/codes` used by this code, plus
`unknown`, the code the gRPC runtime assigns to a plain (non-status)
error. -/
inductive Code where
  | ok : Code
  | internal : Code
  | unauthenticated : Code
  | unimplemented : Code
  | permissionDenied : Code
  | unknown : Code
deriving DecidableEq, Repr

/-- A gRPC status as built by `status.Errorf`. -/
structure GStatus where
  code : Code
  msg : String
deriving DecidableEq, Repr

/-- LoginRequest mirrors `apiv1.LoginRequest`: a (nilable) user identifier
and a password. -/
structure LoginRequest where
  user : Option Identifier
  password : String

/-- Login (second revision): requires a signing key, a provider registered
for the namespace of the requested identity, and — for namespaces outside
the service-account set — a caller context whose `UserContextData` names a
service-account namespace; then consults the provider and on success mints
a token whose duration is 72h exactly when the namespace equals
`ConciergeServiceUser`, 5m otherwise. -/
def Login (auth : Auth) (now : Int) (ctx : Context) (r : LoginRequest) :
    Except GStatus TokenStr :=
  match auth.jwtPrivatekey with
  | none => .error { code := .internal,
                     msg := "no private key specified for signing jwt token" }
  | some _ =>
    match lookupAP auth.authProviders (getSystem r.user) with
    | none =>
      .error { code := .unauthenticated,
               msg := "auth: unable to provide authentication for namespace uri "
                        ++ getSystem r.user }
    | some ap =>
      if !auth.serviceAccounts.contains (getSystem r.user) &&
         !auth.serviceAccounts.contains
            (getSystem (GetAuthenticatedUser (GetContextData ctx))) then
        .error { code := .unauthenticated,
                 msg := "need service account login before logging in using normal user account" }
      else
        match ap.authenticate r.user r.password with
        | (_, some e) =>
          .error { code := .unauthenticated, msg := "failed to authenticate: " ++ e }
        | (false, none) =>
          .error { code := .unauthenticated, msg := "invalid credentials" }
        | (true, none) =>
          let tokenDuration : Int :=
            if getSystem r.user = ConciergeServiceUser then
              serviceAccountTokenDuration
            else defaultTokenDuration
          match generateToken auth now r.user tokenDuration with
          | .error e =>
            .error { code := .internal, msg := "could not generate token: " ++ e }
          | .ok ss => .ok ss

/-- Refresh: reads the `UserContextData` from the context; when more than
five minutes remain before expiry it returns the stored raw token,
otherwise it mints a new token under the same duration rule as `Login`.
The source dereferences `ucd.token` / `ucd.authenticatedUser` without a nil
guard, so a context with no identity would crash the Go handler there; the
embedding substitutes the zero `UserContextData` on nil and every theorem
below only concerns contexts that do carry an identity. -/
def Refresh (auth : Auth) (now : Int) (ctx : Context) : Except GStatus TokenStr :=
  let ucd := GetContextData ctx
  if GetTokenExpiresAt ucd - now > 5 * 60 then
    .ok ((ucd.getD default).token)
  else
    let user := (ucd.getD default).authenticatedUser
    let tokenDuration : Int :=
      if getSystem user = ConciergeServiceUser then serviceAccountTokenDuration
      else defaultTokenDuration
    match generateToken auth now user tokenDuration with
    | .error e => .error { code := .internal, msg := "could not generate token: " ++ e }
    | .ok ss => .ok ss

/-- The fixed allow-list of methods served without authentication. -/
def noAuthEndpoints : List String :=
  ["/apiv1.Authenticator/Login", "/grpc.health.v1.Health/Check"]

/-- unaryAuthInterceptor: attaches identity data; on success, or on failure
of an allow-listed method, invokes the handler on the context
`addContextData` returned (the original one on failure); every other
failing call is rejected with `Unauthenticated`, with the failure message
interpolated into the response status. -/
def unaryAuthInterceptor {α : Type} (auth : Auth) (now : Int) (ctx : Context)
    (fullMethod : String) (handler : Context → Except GStatus α) :
    Except GStatus α :=
  let p := addContextData auth now ctx
  match p.2 with
  | none => handler p.1
  | some e =>
    if noAuthEndpoints.contains fullMethod then handler p.1
    else .error { code := .unauthenticated, msg := "unauthenticated: " ++ e.msg }

/-- A Go error as seen by the gRPC runtime: either a plain `fmt.Errorf`
error or a `status.Errorf` status. -/
inductive GoErr where
  | plain (msg : String) : GoErr
  | stat (s : GStatus) : GoErr
deriving DecidableEq, Repr

/-- Status code the gRPC runtime delivers for a handler error:
`status.Convert` keeps the code of a status error and assigns
`codes.Unknown` to any other error value. -/
def grpcStatusCode : GoErr → Code
  | .plain _ => .unknown
  | .stat s => s.code

/-- streamAuthInterceptor: rejects every streaming call with a plain
`fmt.Errorf("not implemented")` without invoking the stream handler. -/
def streamAuthInterceptor {α : Type} (_handler : Unit → Except GoErr α) :
    Except GoErr α :=
  .error (.plain "not implemented")

/-- Result of `Server.Watch`, the streaming health check: an
`Unimplemented` status (only reachable when no stream interceptor is
installed, i.e. with authentication disabled). -/
def WatchResult : GoErr :=
  .stat { code := .unimplemented,
          msg := "grpc health watch operation not implemented" }

/-- A registered Provider as `Server.Close` observes it: the result its
`Close()` call would return (`none` for a nil error). -/
structure ServerProvider where
  closeResult : Option String
deriving DecidableEq, Repr

/-- Server.Close, instrumented with the providers whose `Close()` actually
ran: the loop returns the first error immediately, so the first component
lists the providers closed (in iteration order) and the second is the
returned error. -/
def closeAll : List ServerProvider → List ServerProvider × Option String
  | [] => ([], none)
  | p :: ps =>
    match p.closeResult with
    | some e => ([p], some e)
    | none =>
      let r := closeAll ps
      (p :: r.1, r.2)

/-- First `Close()` error among the providers in iteration order — the
value the specification says `close()` returns. -/
def firstCloseErr : List ServerProvider → Option String
  | [] => none
  | p :: ps =>
    match p.closeResult with
    | some e => some e
    | none => firstCloseErr ps

/-! Helper lemmas about the split of a JWT subject and about context
attachment, shared by the claim theorems below. -/

theorem splitChar_of_not_mem (sep : Char) (l : List Char) (h : sep ∉ l) :
    splitChar sep l = [l] := by
  induction l with
  | nil => rfl
  | cons c cs ih =>
    have hc : c ≠ sep := fun e => h (e ▸ List.mem_cons_self c cs)
    have hcs : sep ∉ cs := fun m => h (List.mem_cons_of_mem _ m)
    simp [splitChar, hc, ih hcs]

theorem splitChar_append_sep (sep : Char) (a b : List Char)
    (ha : sep ∉ a) (hb : sep ∉ b) :
    splitChar sep (a ++ sep :: b) = [a, b] := by
  induction a with
  | nil => simp [splitChar, splitChar_of_not_mem sep b hb]
  | cons c cs ih =>
    have hc : c ≠ sep := fun e => ha (e ▸ List.mem_cons_self c cs)
    have hcs : sep ∉ cs := fun m => ha (List.mem_cons_of_mem _ m)
    simp [splitChar, hc, ih hcs]

theorem data_append (a b : String) : (a ++ b).data = a.data ++ b.data := rfl

theorem goSplit_append_sep (a b : String) (ha : '|' ∉ a.data) (hb : '|' ∉ b.data) :
    goSplit (a ++ "|" ++ b) '|' = [a, b] := by
  unfold goSplit
  rw [data_append, data_append, show ("|" : String).data = ['|'] from rfl,
    List.append_assoc, show ['|'] ++ b.data = '|' :: b.data from rfl,
    splitChar_append_sep '|' a.data b.data ha hb]
  rfl

theorem addContextData_fst_or (auth : Auth) (now : Int) (ctx : Context) :
    (addContextData auth now ctx).1 = ctx ∨ (addContextData auth now ctx).2 = none := by
  unfold addContextData
  split
  · exact Or.inl rfl
  · split
    · exact Or.inl rfl
    · split
      · exact Or.inl rfl
      · exact Or.inr rfl

theorem addContextData_error_keeps_ctx (auth : Auth) (now : Int) (ctx : Context)
    (h : (addContextData auth now ctx).2 ≠ none) :
    (addContextData auth now ctx).1 = ctx :=
  (addContextData_fst_or auth now ctx).resolve_right h

/-- C10: when attaching identity data fails for any reason (no metadata, no
authorization entry, or token parse failure), `addContextData` returns the
original context unchanged, and on an incoming call context (which carries
no user entry) `GetContextData` of the returned context is still `nil`, so
no partial identity is ever attached. -/
theorem c10_no_partial_identity (auth : Auth) (now : Int) (ctx : Context)
    (e : CtxErr) (h : (addContextData auth now ctx).2 = some e) :
    (addContextData auth now ctx).1 = ctx ∧
      (ctx.userData = none →
        GetContextData (addContextData auth now ctx).1 = none) := by
  have h1 : (addContextData auth now ctx).1 = ctx :=
    addContextData_error_keeps_ctx auth now ctx (by simp [h])
  exact ⟨h1, fun h0 => by simp [GetContextData, h1, h0]⟩

/-- Witness for C10 at a concrete incoming context with no metadata. -/
theorem c10_witness :
    (addContextData ⟨some 1, [], []⟩ 0 ⟨none, none⟩).1 = (⟨none, none⟩ : Context) ∧
      ((⟨none, none⟩ : Context).userData = none →
        GetContextData (addContextData ⟨some 1, [], []⟩ 0 ⟨none, none⟩).1 = none) :=
  c10_no_partial_identity ⟨some 1, [], []⟩ 0 ⟨none, none⟩ .noMetadata rfl

/-- C8 (amended): on an auth-enabled runtime every inbound streaming call
is rejected by the stream interceptor with a plain
`fmt.Errorf("not implemented")` error — which the gRPC runtime surfaces
with status code `Unknown`, not `Unimplemented` — and the streaming
handler is never invoked (the rejection is the same for every handler). -/
theorem c8_stream_rejected {α : Type} (handler : Unit → Except GoErr α) :
    streamAuthInterceptor handler = .error (.plain "not implemented") ∧
      grpcStatusCode (.plain "not implemented") = Code.unknown :=
  ⟨rfl, rfl⟩

/-- Counterexample for C8 as stated: the stream interceptor rejects a
concrete call with a plain error whose gRPC status code is `Unknown`, not
the claimed `Unimplemented`. -/
theorem c8_counterexample :
    streamAuthInterceptor (fun _ => Except.ok ()) = .error (.plain "not implemented") ∧
      grpcStatusCode (.plain "not implemented") ≠ Code.unimplemented :=
  ⟨rfl, by decide⟩

theorem closeAll_snd (ps : List ServerProvider) :
    (closeAll ps).2 = firstCloseErr ps := by
  induction ps with
  | nil => rfl
  | cons p ps ih => cases h : p.closeResult <;> simp [closeAll, firstCloseErr, h, ih]

theorem closeAll_all_ok (ps : List ServerProvider) (h : firstCloseErr ps = none) :
    closeAll ps = (ps, none) := by
  induction ps with
  | nil => rfl
  | cons p ps ih =>
    cases hc : p.closeResult with
    | some e => simp [firstCloseErr, hc] at h
    | none =>
      have hps : firstCloseErr ps = none := by simpa [firstCloseErr, hc] using h
      simp [closeAll, hc, ih hps]

theorem closeAll_stops (as : List ServerProvider) (p : ServerProvider)
    (bs : List ServerProvider) (e : String)
    (has : ∀ q ∈ as, q.closeResult = none) (hp : p.closeResult = some e) :
    closeAll (as ++ p :: bs) = (as ++ [p], some e) := by
  induction as with
  | nil => simp [closeAll, hp]
  | cons q qs ih =>
    have hq : q.closeResult = none := has q (List.mem_cons_self q qs)
    have ih2 := ih (fun r hr => has r (List.mem_cons_of_mem _ hr))
    simp [closeAll, hq, ih2]

/-- C9 (amended): `Server.Close` returns the first `Close()` error in
iteration order (nil when all succeed), but it returns at the first error
rather than continuing: when every provider closes cleanly all of them are
closed, and when a provider fails, exactly the providers up to and
including the first failing one have been closed. -/
theorem c9_close_first_error (ps : List ServerProvider) :
    (closeAll ps).2 = firstCloseErr ps ∧
      (firstCloseErr ps = none → closeAll ps = (ps, none)) ∧
      (∀ as p bs e, ps = as ++ p :: bs → (∀ q ∈ as, q.closeResult = none) →
        p.closeResult = some e → closeAll ps = (as ++ [p], some e)) :=
  ⟨closeAll_snd ps, closeAll_all_ok ps,
    fun as p bs e hps has hp => hps ▸ closeAll_stops as p bs e has hp⟩

/-- Witness for C9 on a concrete provider list whose middle provider fails. -/
theorem c9_witness :
    (closeAll [⟨none⟩, ⟨some "boom"⟩, ⟨none⟩]).2 =
        firstCloseErr [⟨none⟩, ⟨some "boom"⟩, ⟨none⟩] ∧
      closeAll [⟨none⟩, ⟨some "boom"⟩, ⟨none⟩] = ([⟨none⟩, ⟨some "boom"⟩], some "boom") := by
  have h := c9_close_first_error [⟨none⟩, ⟨some "boom"⟩, ⟨none⟩]
  refine ⟨h.1, h.2.2 [⟨none⟩] ⟨some "boom"⟩ [⟨none⟩] "boom" rfl ?_ rfl⟩
  intro q hq
  simp only [List.mem_singleton] at hq
  rw [hq]

/-- Counterexample for C9 as stated: with two providers whose first
`Close()` fails, the second provider is never closed, refuting "calls
Close() on every registered Provider ... continuing to close the rest". -/
theorem c9_counterexample :
    closeAll [⟨some "e1"⟩, ⟨none⟩] = ([⟨some "e1"⟩], some "e1") ∧
      (⟨none⟩ : ServerProvider) ∉ (closeAll [⟨some "e1"⟩, ⟨none⟩]).1 := by
  exact ⟨rfl, by decide⟩

/-- C5 (amended): for every bearer string whose signing method is RSA,
whose signature verifies against the current public key and whose claims
pass validation, if the subject does not split on the pipe separator into
exactly two parts — emptiness of the parts is not checked — `parseToken`
fails with `ErrInvalidToken` and returns no identity data. -/
theorem c5_subject_split (auth : Auth) (now : Int) (key : Nat)
    (claims : StandardClaims)
    (hkey : auth.jwtPrivatekey = some key)
    (hvalid : claimsValid now claims = true)
    (hsplit : (goSplit claims.subject '|').length ≠ 2) :
    parseToken auth now (.jwt true key claims) = .error .invalidToken := by
  unfold parseToken
  rcases hg : goSplit claims.subject '|' with _ | ⟨a, _ | ⟨b, _ | ⟨c, rest⟩⟩⟩ <;>
    simp_all [hkey, hvalid, hg]

/-- Witness for C5 at a concrete token whose subject has no separator. -/
theorem c5_witness :
    parseToken ⟨some 3, [], []⟩ 10 (.jwt true 3 ⟨20, 5, "abc"⟩) =
      .error .invalidToken :=
  c5_subject_split ⟨some 3, [], []⟩ 10 3 ⟨20, 5, "abc"⟩ rfl (by decide) (by decide)

/-- Counterexample for C5 as stated: subjects "ns|" and "|" split into two
parts that are not both non-empty, yet `parseToken` accepts both and
returns an identity with an empty value (resp. empty namespace and value),
instead of failing with `InvalidToken`. -/
theorem c5_counterexample :
    parseToken ⟨some 3, [], []⟩ 10 (.jwt true 3 ⟨20, 5, "ns|"⟩) =
        .ok ⟨some ⟨"ns", ""⟩, .jwt true 3 ⟨20, 5, "ns|"⟩, 20⟩ ∧
      parseToken ⟨some 3, [], []⟩ 10 (.jwt true 3 ⟨20, 5, "|"⟩) =
        .ok ⟨some ⟨"", ""⟩, .jwt true 3 ⟨20, 5, "|"⟩, 20⟩ :=
  ⟨rfl, rfl⟩

/-- An AuthProvider that accepts every credential, for concrete instances. -/
def acceptAllProvider : AuthProvider := ⟨fun _ _ => (true, none)⟩

/-- C1: for a login whose identity namespace is not a service-account
namespace (with a signing key present and a provider registered for the
namespace, and with the empty string — not a URI — never registered as a
service-account namespace): when the caller context carries no
`UserContextData` naming a service-account namespace, login fails
`Unauthenticated` with an error that does not depend on the provider's
behaviour (the provider is universally quantified and never consulted);
when such a service-account identity is in context and the provider
accepts the credentials, login succeeds with a token. -/
theorem c1_login_trust_chain (auth : Auth) (now : Int) (ctx : Context)
    (r : LoginRequest) (k : Nat) (ap : AuthProvider)
    (hkey : auth.jwtPrivatekey = some k)
    (hreg : lookupAP auth.authProviders (getSystem r.user) = some ap)
    (hns : auth.serviceAccounts.contains (getSystem r.user) = false)
    (hempty : auth.serviceAccounts.contains "" = false) :
    ((¬ ∃ u, GetContextData ctx = some u ∧
        auth.serviceAccounts.contains (getSystem u.authenticatedUser) = true) →
      Login auth now ctx r =
        .error ⟨.unauthenticated,
          "need service account login before logging in using normal user account"⟩) ∧
    (∀ u, GetContextData ctx = some u →
      auth.serviceAccounts.contains (getSystem u.authenticatedUser) = true →
      ap.authenticate r.user r.password = (true, none) →
      ∃ tok, Login auth now ctx r = .ok tok) := by
  constructor
  · intro hno
    have hc2 : auth.serviceAccounts.contains
        (getSystem (GetAuthenticatedUser (GetContextData ctx))) = false := by
      cases hu : GetContextData ctx with
      | none => simpa [GetAuthenticatedUser, getSystem] using hempty
      | some u =>
        cases hb : auth.serviceAccounts.contains (getSystem u.authenticatedUser) with
        | false => simpa [GetAuthenticatedUser, hu] using hb
        | true => exact absurd ⟨u, hu, hb⟩ hno
    have hcond : (!auth.serviceAccounts.contains (getSystem r.user) &&
        !auth.serviceAccounts.contains
          (getSystem (GetAuthenticatedUser (GetContextData ctx)))) = true := by
      rw [hns, hc2]; rfl
    simp only [Login, hkey, hreg]
    rw [if_pos hcond]
  · intro u hu hsvc hauth
    have hmem : getSystem u.authenticatedUser ∈ auth.serviceAccounts := by
      simpa using hsvc
    simp [Login, hkey, hreg, hu, GetAuthenticatedUser, hauth, generateToken, hmem]

/-- Auth state for the C1 witness: one delegated namespace with an
accepting provider, one service namespace. -/
def c1Auth : Auth := ⟨some 11, [("urn:ns", acceptAllProvider)], ["urn:svc"]⟩

/-- Witness for C1: the same delegated login fails with no identity in
context and succeeds with a service-account identity in context. -/
theorem c1_witness :
    Login c1Auth 5 ⟨none, none⟩ ⟨some ⟨"urn:ns", "alice"⟩, "pw"⟩ =
        .error ⟨.unauthenticated,
          "need service account login before logging in using normal user account"⟩ ∧
      ∃ tok, Login c1Auth 5 ⟨some ⟨some ⟨"urn:svc", "s"⟩, .malformed, 9999⟩, none⟩
          ⟨some ⟨"urn:ns", "alice"⟩, "pw"⟩ = .ok tok := by
  constructor
  · exact (c1_login_trust_chain c1Auth 5 ⟨none, none⟩ ⟨some ⟨"urn:ns", "alice"⟩, "pw"⟩
      11 acceptAllProvider rfl rfl rfl rfl).1
      (by rintro ⟨u, hu, -⟩; exact Option.noConfusion hu)
  · exact (c1_login_trust_chain c1Auth 5
      ⟨some ⟨some ⟨"urn:svc", "s"⟩, .malformed, 9999⟩, none⟩
      ⟨some ⟨"urn:ns", "alice"⟩, "pw"⟩ 11 acceptAllProvider rfl rfl rfl rfl).2
      ⟨some ⟨"urn:svc", "s"⟩, .malformed, 9999⟩ rfl rfl rfl

/-- C2 (amended): for every identity whose namespace and value contain no
pipe separator and every nonnegative duration, with a signing key present,
`parseToken` applied to the result of `generateToken` succeeds and yields
identity data whose identity equals the input and whose expiry equals
`issuedAt + duration` exactly (the model has a single clock, so the
clock-skew tolerance is not needed). -/
theorem c2_round_trip (auth : Auth) (k : Nat) (now : Int) (sys val : String)
    (d : Int) (hkey : auth.jwtPrivatekey = some k)
    (hs : '|' ∉ sys.data) (hv : '|' ∉ val.data) (hd : 0 ≤ d) :
    ∃ tok, generateToken auth now (some ⟨sys, val⟩) d = .ok tok ∧
      parseToken auth now tok = .ok ⟨some ⟨sys, val⟩, tok, now + d⟩ := by
  refine ⟨.jwt true k ⟨now + d, now, sys ++ "|" ++ val⟩,
    by simp [generateToken, hkey, getSystem, getValue], ?_⟩
  have hval : claimsValid now ⟨now + d, now, sys ++ "|" ++ val⟩ = true := by
    simp only [claimsValid, Bool.and_eq_true, Bool.or_eq_true, beq_iff_eq,
      decide_eq_true_eq]
    omega
  unfold parseToken
  simp [hkey, hval, goSplit_append_sep sys val hs hv]

/-- Witness for C2 on a concrete identity and duration. -/
theorem c2_witness :
    ∃ tok, generateToken ⟨some 1, [], []⟩ 1000 (some ⟨"ns", "bob"⟩) 60 = .ok tok ∧
      parseToken ⟨some 1, [], []⟩ 1000 tok = .ok ⟨some ⟨"ns", "bob"⟩, tok, 1000 + 60⟩ :=
  c2_round_trip ⟨some 1, [], []⟩ 1 1000 "ns" "bob" 60 rfl (by decide) (by decide)
    (by decide)

/-- Counterexample for C2 as stated ("for every identity and every
duration"): a value containing the pipe separator makes the subject split
into three parts, so the round trip fails with `InvalidToken`; and a
negative duration produces an already-expired token that fails
validation. -/
theorem c2_counterexample :
    generateToken ⟨some 1, [], []⟩ 1000 (some ⟨"ns", "a|b"⟩) 60 =
        .ok (.jwt true 1 ⟨1060, 1000, "ns|a|b"⟩) ∧
      parseToken ⟨some 1, [], []⟩ 1000 (.jwt true 1 ⟨1060, 1000, "ns|a|b"⟩) =
        .error .invalidToken ∧
      generateToken ⟨some 1, [], []⟩ 1000 (some ⟨"ns", "x"⟩) (-10) =
        .ok (.jwt true 1 ⟨990, 1000, "ns|x"⟩) ∧
      parseToken ⟨some 1, [], []⟩ 1000 (.jwt true 1 ⟨990, 1000, "ns|x"⟩) =
        .error .expired :=
  ⟨rfl, rfl, rfl, rfl⟩

/-- C3 (amended): every successful login issues a token whose lifetime is
72 hours exactly when the identity's namespace equals the fixed
`ConciergeServiceUser` URI, and 5 minutes for every other namespace — the
`isServiceAccount` registration flag does not participate in the duration
choice. -/
theorem c3_token_lifetime (auth : Auth) (now : Int) (ctx : Context)
    (r : LoginRequest) (tok : TokenStr)
    (h : Login auth now ctx r = .ok tok) :
    tok.expiry - tok.issuedAt =
      (if getSystem r.user = ConciergeServiceUser then serviceAccountTokenDuration
       else defaultTokenDuration) := by
  simp only [Login] at h
  split at h
  · exact Except.noConfusion h
  rename_i k hk
  split at h
  · exact Except.noConfusion h
  split at h
  · exact Except.noConfusion h
  split at h
  · exact Except.noConfusion h
  · exact Except.noConfusion h
  · split at h
    · exact Except.noConfusion h
    rename_i ss hg
    simp only [generateToken, hk] at hg
    cases hg
    cases h
    simp only [TokenStr.expiry, TokenStr.issuedAt]
    omega

/-- Auth state for the C3 concrete instances: the concierge service-user
namespace registered with an accepting provider and the service flag. -/
def c3Auth : Auth :=
  ⟨some 5, [(ConciergeServiceUser, acceptAllProvider)], [ConciergeServiceUser]⟩

/-- Witness for C3 on a concrete successful service login. -/
theorem c3_witness :
    TokenStr.expiry
          (.jwt true 5 ⟨1000 + serviceAccountTokenDuration, 1000,
            ConciergeServiceUser ++ "|" ++ "a"⟩) -
        TokenStr.issuedAt
          (.jwt true 5 ⟨1000 + serviceAccountTokenDuration, 1000,
            ConciergeServiceUser ++ "|" ++ "a"⟩) =
      (if getSystem (some ⟨ConciergeServiceUser, "a"⟩) = ConciergeServiceUser
       then serviceAccountTokenDuration else defaultTokenDuration) :=
  c3_token_lifetime c3Auth 1000 ⟨none, none⟩
    ⟨some ⟨ConciergeServiceUser, "a"⟩, "pw"⟩
    (.jwt true 5 ⟨1000 + serviceAccountTokenDuration, 1000,
      ConciergeServiceUser ++ "|" ++ "a"⟩) rfl

/-- Counterexample for C3 as stated: the namespace "urn:test-svc" is
registered with `isServiceAccount = true`, a login in it succeeds (it is a
service namespace, so no prior identity is needed), yet the issued token
lives 5 minutes, not 72 hours — the duration is keyed on the fixed
`ConciergeServiceUser` URI, not on the registration flag. -/
theorem c3_counterexample :
    RegisterAuthProvider ⟨some 5, [], []⟩ "urn:test-svc" acceptAllProvider true =
        some ⟨some 5, [("urn:test-svc", acceptAllProvider)], ["urn:test-svc"]⟩ ∧
      Login ⟨some 5, [("urn:test-svc", acceptAllProvider)], ["urn:test-svc"]⟩ 1000
          ⟨none, none⟩ ⟨some ⟨"urn:test-svc", "u"⟩, "pw"⟩ =
        .ok (.jwt true 5 ⟨1000 + defaultTokenDuration, 1000, "urn:test-svc|u"⟩) ∧
      defaultTokenDuration ≠ serviceAccountTokenDuration :=
  ⟨rfl, rfl, by decide⟩

/-- C4 (amended): with an identity in the call context and a signing key
present, a refresh with strictly more than 5 minutes remaining returns the
stored raw token unchanged (so repeated refreshes in this window return
identical tokens); with 5 minutes or less remaining it mints a fresh token
expiring at `now + duration` under the same duration rule as login, whose
expiry is strictly later than the old one whenever strictly less than 5
minutes remained — with exactly 5 minutes remaining, a non-service
identity receives a token with the same expiry, not a later one. -/
theorem c4_refresh_policy (auth : Auth) (now : Int) (ctx : Context)
    (u : UserContextData) (k : Nat)
    (hu : GetContextData ctx = some u)
    (hkey : auth.jwtPrivatekey = some k) :
    (u.tokenExpiresAt - now > 5 * 60 → Refresh auth now ctx = .ok u.token) ∧
    (u.tokenExpiresAt - now ≤ 5 * 60 →
      Refresh auth now ctx =
          .ok (.jwt true k
            { expiresAt := now +
                (if getSystem u.authenticatedUser = ConciergeServiceUser
                 then serviceAccountTokenDuration else defaultTokenDuration),
              issuedAt := now,
              subject := getSystem u.authenticatedUser ++ "|"
                           ++ getValue u.authenticatedUser }) ∧
        (u.tokenExpiresAt - now < 5 * 60 →
          u.tokenExpiresAt <
            now + (if getSystem u.authenticatedUser = ConciergeServiceUser
              then serviceAccountTokenDuration else defaultTokenDuration))) := by
  constructor
  · intro h
    simp only [Refresh, hu, GetTokenExpiresAt]
    rw [if_pos h]
    rfl
  · intro h2
    constructor
    · simp only [Refresh, hu, GetTokenExpiresAt]
      rw [if_neg (by omega)]
      simp [generateToken, hkey]
    · intro h3
      split
      · simp only [serviceAccountTokenDuration]
        omega
      · simp only [defaultTokenDuration]
        omega

/-- Witness for C4: a refresh with 1000 seconds remaining returns the
stored token; a refresh with 150 seconds remaining mints a token expiring
at `now + 300`, strictly later than the old expiry. -/
theorem c4_witness :
    Refresh ⟨some 7, [], []⟩ 1000
        ⟨some ⟨some ⟨"ns", "bob"⟩, .jwt true 7 ⟨2000, 1400, "ns|bob"⟩, 2000⟩, none⟩ =
        .ok (.jwt true 7 ⟨2000, 1400, "ns|bob"⟩) ∧
      Refresh ⟨some 7, [], []⟩ 1000
          ⟨some ⟨some ⟨"ns", "bob"⟩, .jwt true 7 ⟨1150, 850, "ns|bob"⟩, 1150⟩, none⟩ =
        .ok (.jwt true 7 ⟨1300, 1000, "ns|bob"⟩) ∧
      (1150 : Int) < 1300 := by
  have h1 := c4_refresh_policy ⟨some 7, [], []⟩ 1000
    ⟨some ⟨some ⟨"ns", "bob"⟩, .jwt true 7 ⟨2000, 1400, "ns|bob"⟩, 2000⟩, none⟩
    ⟨some ⟨"ns", "bob"⟩, .jwt true 7 ⟨2000, 1400, "ns|bob"⟩, 2000⟩ 7 rfl rfl
  have h2 := c4_refresh_policy ⟨some 7, [], []⟩ 1000
    ⟨some ⟨some ⟨"ns", "bob"⟩, .jwt true 7 ⟨1150, 850, "ns|bob"⟩, 1150⟩, none⟩
    ⟨some ⟨"ns", "bob"⟩, .jwt true 7 ⟨1150, 850, "ns|bob"⟩, 1150⟩ 7 rfl rfl
  exact ⟨h1.1 (by decide), (h2.2 (by decide)).1, (h2.2 (by decide)).2 (by decide)⟩

/-- Counterexample for C4 as stated ("5 minutes or less remaining returns
a newly minted token with a strictly later expiry"): with exactly 5
minutes (300 seconds) remaining, refresh takes the minting branch but the
fresh token of a non-service identity expires at `now + 300`, the very
same instant as the old token — not strictly later (here the minted token
is even byte-identical to the stored one). -/
theorem c4_counterexample :
    Refresh ⟨some 7, [], []⟩ 1000
        ⟨some ⟨some ⟨"ns", "bob"⟩, .jwt true 7 ⟨1300, 1000, "ns|bob"⟩, 1300⟩, none⟩ =
        .ok (.jwt true 7 ⟨1300, 1000, "ns|bob"⟩) ∧
      ¬((1300 : Int) < 1300) :=
  ⟨rfl, by decide⟩

/-- C6 (amended): on an auth-enabled runtime, when token extraction or
parsing fails the unary interceptor invokes the handler — on the original
context, hence with no identity attached — exactly when the called method
is the login or health-check operation; every other method is rejected
with `Unauthenticated`, and the failure reason is interpolated into the
response status message (as well as logged), not withheld from the
caller. -/
theorem c6_interceptor {α : Type} (auth : Auth) (now : Int) (ctx : Context)
    (fullMethod : String) (handler : Context → Except GStatus α) (e : CtxErr)
    (hfail : (addContextData auth now ctx).2 = some e) :
    (noAuthEndpoints.contains fullMethod = true →
      unaryAuthInterceptor auth now ctx fullMethod handler = handler ctx) ∧
    (noAuthEndpoints.contains fullMethod = false →
      unaryAuthInterceptor auth now ctx fullMethod handler =
        .error ⟨.unauthenticated, "unauthenticated: " ++ e.msg⟩) := by
  have hctx : (addContextData auth now ctx).1 = ctx :=
    addContextData_error_keeps_ctx auth now ctx (by simp [hfail])
  constructor
  · intro hm
    have hmem : fullMethod ∈ noAuthEndpoints := by simpa using hm
    simp [unaryAuthInterceptor, hfail, hctx, hmem]
  · intro hm
    have hnot : fullMethod ∉ noAuthEndpoints := by simpa using hm
    simp [unaryAuthInterceptor, hfail, hctx, hnot]

/-- Witness for C6: with no metadata on the context, the login method is
served while another method is rejected with the reason in the message. -/
theorem c6_witness :
    unaryAuthInterceptor ⟨some 1, [], []⟩ 0 ⟨none, none⟩
        "/apiv1.Authenticator/Login" (fun _ => Except.ok "r") = Except.ok "r" ∧
      unaryAuthInterceptor ⟨some 1, [], []⟩ 0 ⟨none, none⟩
          "/other.Service/Op" (fun _ => Except.ok "r") =
        .error ⟨.unauthenticated, "unauthenticated: invalid token"⟩ := by
  have h1 := c6_interceptor ⟨some 1, [], []⟩ 0 ⟨none, none⟩
    "/apiv1.Authenticator/Login" (fun _ => Except.ok "r") .noMetadata rfl
  have h2 := c6_interceptor ⟨some 1, [], []⟩ 0 ⟨none, none⟩
    "/other.Service/Op" (fun _ => Except.ok "r") .noMetadata rfl
  exact ⟨h1.1 rfl, h2.2 rfl⟩

/-- Counterexample for C6 as stated ("the failure reason appears only in
the operator log, not in the response"): a rejected call's response status
carries the failure reason appended to the "unauthenticated: " prefix. -/
theorem c6_counterexample :
    unaryAuthInterceptor ⟨some 1, [], []⟩ 0 ⟨none, none⟩
        "/other.Service/Op" (fun _ => Except.ok "r") =
      .error ⟨.unauthenticated, "unauthenticated: " ++ CtxErr.noMetadata.msg⟩ :=
  rfl

/-- An AuthProvider whose backend fails, for the C7 concrete instances. -/
def failingProvider : AuthProvider :=
  ⟨fun _ _ => (false, some "ldap: connection refused")⟩

/-- C7 (amended): when the registered provider's `authenticate` returns an
error (on a login that reached the provider: a signing key is present, the
provider is registered, and the namespace is a service namespace or a
service identity anchors the context), login fails `Unauthenticated` and
the caller-visible message embeds the provider's error after the
"failed to authenticate: " prefix — the details are echoed to the caller,
not only logged. -/
theorem c7_provider_error (auth : Auth) (now : Int) (ctx : Context)
    (r : LoginRequest) (ap : AuthProvider) (k : Nat) (b : Bool) (e : String)
    (hkey : auth.jwtPrivatekey = some k)
    (hreg : lookupAP auth.authProviders (getSystem r.user) = some ap)
    (hanchor : auth.serviceAccounts.contains (getSystem r.user) = true ∨
      auth.serviceAccounts.contains
        (getSystem (GetAuthenticatedUser (GetContextData ctx))) = true)
    (hauth : ap.authenticate r.user r.password = (b, some e)) :
    Login auth now ctx r =
      .error ⟨.unauthenticated, "failed to authenticate: " ++ e⟩ := by
  have hcond : (!auth.serviceAccounts.contains (getSystem r.user) &&
      !auth.serviceAccounts.contains
        (getSystem (GetAuthenticatedUser (GetContextData ctx)))) = false := by
    rcases hanchor with h | h <;> rw [h] <;> simp
  simp only [Login, hkey, hreg]
  rw [if_neg (by rw [hcond]; exact Bool.false_ne_true)]
  rw [hauth]
  cases b <;> rfl

/-- Witness for C7 on a concrete service login whose backend errors. -/
theorem c7_witness :
    Login ⟨some 2, [("urn:svc", failingProvider)], ["urn:svc"]⟩ 0 ⟨none, none⟩
        ⟨some ⟨"urn:svc", "s"⟩, "pw"⟩ =
      .error ⟨.unauthenticated, "failed to authenticate: ldap: connection refused"⟩ :=
  c7_provider_error ⟨some 2, [("urn:svc", failingProvider)], ["urn:svc"]⟩ 0
    ⟨none, none⟩ ⟨some ⟨"urn:svc", "s"⟩, "pw"⟩ failingProvider 2 false
    "ldap: connection refused" rfl rfl (Or.inl rfl) rfl

/-- Counterexample for C7 as stated ("does not echo the provider's internal
error details"): the caller-visible status message is exactly the
"failed to authenticate: " prefix followed by the provider's own error
text. -/
theorem c7_counterexample :
    Login ⟨some 2, [("urn:svc", failingProvider)], ["urn:svc"]⟩ 0 ⟨none, none⟩
        ⟨some ⟨"urn:svc", "s"⟩, "pw"⟩ =
      .error ⟨.unauthenticated, "failed to authenticate: " ++ "ldap: connection refused"⟩ :=
  rfl
